import Mathlib

/-!
Shallow embedding of the voice-agent front end.

The embedded code comes from three React components:
* `VoiceAgent` (the voice session UI): connection, recording, text input,
  the simulated transcription and agent-response timers, and the settings
  dialog.
* `ModelManagement` (the admin model-configuration surface): `handleSaveModel`.
* `CallRecordings` (the recordings grid): `handleDelete`.

React `useState` hooks become fields of an explicit state record; each
handler becomes a pure function from state to state.  JavaScript
`setTimeout` callbacks that have been scheduled but have not yet fired are
kept in an explicit FIFO `pendingTimers` queue; `fireNextTimer` pops and
runs the oldest one, which is how the event loop is modelled.  `Date.now()`
and `new Date()` are modelled by an explicit `now : Nat` argument.
Fractional confidence values are stored in hundredths (`0.95` becomes
`95`, `1.0` would be `100`); no arithmetic is performed on them in the
source.
-/

/-- `ConversationMessage.type` in the source: `user` or `agent`. -/
inductive MsgType where
  | user
  | agent
deriving DecidableEq

/-- The `ConversationMessage` interface of `VoiceAgent`.  `timestamp`
(`Date`) is modelled as a `Nat` tick; `confidence` is in hundredths. -/
structure ConversationMessage where
  id : String
  type : MsgType
  content : String
  timestamp : Nat
  language : Option String
  confidence : Option Nat
deriving DecidableEq

/-- The `VoiceSettings` interface of `VoiceAgent`. -/
structure VoiceSettings where
  language : String
  sttModel : String
  ttsModel : String
  llmModel : String
deriving DecidableEq

/-- A scheduled `setTimeout` callback of `VoiceAgent` that has not fired
yet.  `setTranscriptionTimer t` is one of the two simulated-transcription
callbacks of `handleStartRecording` (each runs `setCurrentTranscription(t)`);
`agentResponseTimer c` is the simulated agent-response callback of
`handleStopRecording` / `handleTextSubmit` (it appends an agent message
with content `c` and clears `isProcessing`). -/
inductive PendingTimer where
  | setTranscriptionTimer (text : String)
  | agentResponseTimer (content : String)
deriving DecidableEq

/-- The `useState` hooks of the `VoiceAgent` component, plus the queue of
scheduled-but-unfired timers. -/
structure AgentState where
  isConnected : Bool
  isRecording : Bool
  isMuted : Bool
  conversation : List ConversationMessage
  currentTranscription : String
  isProcessing : Bool
  textInput : String
  voiceSettings : VoiceSettings
  pendingTimers : List PendingTimer
deriving DecidableEq

/-- The initial `useState` values of `VoiceAgent`. -/
def initialSettings : VoiceSettings :=
  { language := "en"
    sttModel := "whisper-large-v3"
    ttsModel := "simba-multilingual"
    llmModel := "llama3-70b-8192" }

/-- The initial state of the component. -/
def initialState : AgentState :=
  { isConnected := false
    isRecording := false
    isMuted := false
    conversation := []
    currentTranscription := ""
    isProcessing := false
    textInput := ""
    voiceSettings := initialSettings
    pendingTimers := [] }

/-- Content of the welcome message appended by `handleConnect`. -/
def welcomeContent : String :=
  "Hello! I\u0027m your voice assistant. How can I help you today?"

/-- Fallback utterance used by `handleStopRecording` when
`currentTranscription` is empty (the `||` default in the source). -/
def fallbackUtterance : String :=
  "Hello, I need help with my account settings"

/-- Content of the canned agent reply scheduled by `handleStopRecording`. -/
def stopReplyContent : String :=
  "I\u0027d be happy to help you with your account settings. Could you please specify what particular setting you\u0027d like to modify or learn about?"

/-- Content of the agent reply scheduled by `handleTextSubmit`, echoing the
submitted text (the template literal in the source). -/
def echoReply (t : String) : String :=
  "I understand you said: \"" ++ t ++ "\". Let me help you with that."

/-- `handleConnect`: sets `isConnected`, replaces the conversation with the
single welcome message. -/
def handleConnect (s : AgentState) (now : Nat) : AgentState :=
  { s with
    isConnected := true
    conversation :=
      [{ id := toString now
         type := MsgType.agent
         content := welcomeContent
         timestamp := now
         language := none
         confidence := none }] }

/-- `handleDisconnect`: clears the connected, recording and processing
flags.  Note that it does not touch `pendingTimers`: scheduled `setTimeout`
callbacks survive a disconnect, exactly as in the source. -/
def handleDisconnect (s : AgentState) : AgentState :=
  { s with
    isConnected := false
    isRecording := false
    isProcessing := false }

/-- The two simulated-transcription callbacks scheduled by
`handleStartRecording` (at 1000 ms and 2000 ms). -/
def startTranscriptionTimers : List PendingTimer :=
  [PendingTimer.setTranscriptionTimer ("Hello, I need help with..."),
   PendingTimer.setTranscriptionTimer ("Hello, I need help with my account settings")]

/-- `handleStartRecording`: guarded on `isConnected`; sets `isRecording`,
clears `currentTranscription`, schedules the two simulated-transcription
timers.  It does not cancel or remove any already-scheduled timer. -/
def handleStartRecording (s : AgentState) : AgentState :=
  if !s.isConnected then s
  else
    { s with
      isRecording := true
      currentTranscription := ""
      pendingTimers := s.pendingTimers ++ startTranscriptionTimers }

/-- `handleStopRecording`: guarded on `isRecording`; clears `isRecording`,
sets `isProcessing`, appends the user message built from
`currentTranscription` (falling back to `fallbackUtterance` when it is the
empty string, via `||`), clears `currentTranscription`, and schedules the
canned agent-response timer. -/
def handleStopRecording (s : AgentState) (now : Nat) : AgentState :=
  if !s.isRecording then s
  else
    { s with
      isRecording := false
      isProcessing := true
      conversation := s.conversation ++
        [{ id := toString now
           type := MsgType.user
           content :=
             if s.currentTranscription = "" then fallbackUtterance
             else s.currentTranscription
           timestamp := now
           language := some s.voiceSettings.language
           confidence := some 95 }]
      currentTranscription := ""
      pendingTimers := s.pendingTimers ++ [PendingTimer.agentResponseTimer stopReplyContent] }

/-- JavaScript `String.prototype.trim`: removes whitespace from both ends
of the string.  Written by structural recursion over the character list so
that it evaluates inside proofs. -/
def jsTrim (s : String) : String :=
  String.mk (((s.data.dropWhile Char.isWhitespace).reverse.dropWhile Char.isWhitespace).reverse)

/-- `handleTextSubmit`: returns early when `textInput.trim()` is empty or
the session is not connected; otherwise appends the user message with the
verbatim `textInput` as content (no `language`, no `confidence` field),
clears `textInput`, sets `isProcessing`, and schedules the echo reply. -/
def handleTextSubmit (s : AgentState) (now : Nat) : AgentState :=
  if jsTrim s.textInput == "" || !s.isConnected then s
  else
    { s with
      conversation := s.conversation ++
        [{ id := toString now
           type := MsgType.user
           content := s.textInput
           timestamp := now
           language := none
           confidence := none }]
      textInput := ""
      isProcessing := true
      pendingTimers := s.pendingTimers ++ [PendingTimer.agentResponseTimer (echoReply s.textInput)] }

/-- `handleClearConversation`: empties the conversation list. -/
def handleClearConversation (s : AgentState) : AgentState :=
  { s with conversation := [] }

/-- One fragment arriving in the transcription buffer: the call
`setCurrentTranscription(fragment)` in the source — it replaces the whole buffer, it does
not concatenate. -/
def appendInput (s : AgentState) (fragment : String) : AgentState :=
  { s with currentTranscription := fragment }

/-- Folding a whole list of fragments into the buffer, in order. -/
def appendAll (s : AgentState) (fragments : List String) : AgentState :=
  fragments.foldl appendInput s

/-- The settings dialog `onChange` for the language `Select`:
`setVoiceSettings(prev => ({...prev, language: v}))` — immediate, in every
session state. -/
def applyLanguage (s : AgentState) (lang : String) : AgentState :=
  { s with voiceSettings := { s.voiceSettings with language := lang } }

/-- The settings dialog `onChange` for the STT model `Select`. -/
def applySttModel (s : AgentState) (m : String) : AgentState :=
  { s with voiceSettings := { s.voiceSettings with sttModel := m } }

/-- The settings dialog `onChange` for the TTS model `Select`. -/
def applyTtsModel (s : AgentState) (m : String) : AgentState :=
  { s with voiceSettings := { s.voiceSettings with ttsModel := m } }

/-- The settings dialog `onChange` for the LLM model `Select`. -/
def applyLlmModel (s : AgentState) (m : String) : AgentState :=
  { s with voiceSettings := { s.voiceSettings with llmModel := m } }

/-- Run one scheduled `setTimeout` callback.  A transcription timer runs
`setCurrentTranscription(text)`; an agent-response timer appends the agent
message (its id is `(Date.now() + 1).toString()`, computed at fire time)
and clears `isProcessing`. -/
def fireTimerAction (s : AgentState) (t : PendingTimer) (now : Nat) : AgentState :=
  match t with
  | PendingTimer.setTranscriptionTimer text =>
      { s with currentTranscription := text }
  | PendingTimer.agentResponseTimer content =>
      { s with
        conversation := s.conversation ++
          [{ id := toString (now + 1)
             type := MsgType.agent
             content := content
             timestamp := now
             language := none
             confidence := none }]
        isProcessing := false }

/-- Pop and run the oldest scheduled timer (the event loop fires timers in
the order they were scheduled here, since the delays in the source are ordered). -/
def fireNextTimer (s : AgentState) (now : Nat) : AgentState :=
  match s.pendingTimers with
  | [] => s
  | t :: rest => fireTimerAction { s with pendingTimers := rest } t now

/-- Whether the record button is disabled: `disabled={isProcessing}` in the
source. -/
def recordButtonDisabled (s : AgentState) : Bool :=
  s.isProcessing

/-- The session phases distinguishable in the component (the status chips):
disconnected, recording (capturing), processing, or idle. -/
inductive SessionPhase where
  | Disconnected
  | Idle
  | Capturing
  | Processing
deriving DecidableEq

/-- Derived session phase of a component state. -/
def sessionState (s : AgentState) : SessionPhase :=
  if !s.isConnected then SessionPhase.Disconnected
  else if s.isRecording then SessionPhase.Capturing
  else if s.isProcessing then SessionPhase.Processing
  else SessionPhase.Idle

/-- The catch branch of `handleStartRecording` (`setIsRecording(false)`),
applied to whatever intermediate state the try body had reached. -/
def catchStartRecording (s : AgentState) : AgentState :=
  { s with isRecording := false }

/-- The catch branch of `handleStopRecording` (`setIsProcessing(false)`),
applied to whatever intermediate state the try body had reached. -/
def catchStopRecording (s : AgentState) : AgentState :=
  { s with isProcessing := false }

/-- The user-interface events of the `VoiceAgent` component.  The two
`Failed` events model the catch branches of the corresponding handlers
firing right after the guaranteed prefix of their try bodies. -/
inductive UiEvent where
  | connect (now : Nat)
  | connectFailed
  | disconnect
  | startRecording
  | startRecordingFailed
  | stopRecording (now : Nat)
  | stopRecordingFailed
  | textSubmit (now : Nat)
  | textChange (t : String)
  | clearConversation
  | setLanguage (l : String)
  | setSttModel (m : String)
  | setTtsModel (m : String)
  | setLlmModel (m : String)
  | toggleMute
  | timerFire (now : Nat)
deriving DecidableEq

/-- One step of the component under its rendered controls.  Each handler is
reachable only through the control that invokes it, so the step function
repeats the render-time guards: the connect button is shown only while
disconnected; disconnect, clear-conversation and the settings dialog only
while connected; the record button is shown only while connected, is
disabled while `isProcessing`, and dispatches to start or stop according to
`isRecording`; the text field and send button are disabled while not
connected or processing. -/
def step (s : AgentState) (e : UiEvent) : AgentState :=
  match e with
  | UiEvent.connect now => if s.isConnected then s else handleConnect s now
  | UiEvent.connectFailed => if s.isConnected then s else { s with isConnected := false }
  | UiEvent.disconnect => if s.isConnected then handleDisconnect s else s
  | UiEvent.startRecording =>
      if s.isConnected && !s.isProcessing && !s.isRecording then handleStartRecording s else s
  | UiEvent.startRecordingFailed =>
      if s.isConnected && !s.isProcessing && !s.isRecording then
        catchStartRecording { s with isRecording := true, currentTranscription := "" }
      else s
  | UiEvent.stopRecording now =>
      if s.isConnected && !s.isProcessing && s.isRecording then handleStopRecording s now else s
  | UiEvent.stopRecordingFailed =>
      if s.isConnected && !s.isProcessing && s.isRecording then
        catchStopRecording { s with isRecording := false, isProcessing := true }
      else s
  | UiEvent.textSubmit now =>
      if s.isConnected && !s.isProcessing then handleTextSubmit s now else s
  | UiEvent.textChange t =>
      if s.isConnected && !s.isProcessing then { s with textInput := t } else s
  | UiEvent.clearConversation => if s.isConnected then handleClearConversation s else s
  | UiEvent.setLanguage l => if s.isConnected then applyLanguage s l else s
  | UiEvent.setSttModel m => if s.isConnected then applySttModel s m else s
  | UiEvent.setTtsModel m => if s.isConnected then applyTtsModel s m else s
  | UiEvent.setLlmModel m => if s.isConnected then applyLlmModel s m else s
  | UiEvent.toggleMute => { s with isMuted := !s.isMuted }
  | UiEvent.timerFire now => fireNextTimer s now

/-- `ModelConfig.type` in `ModelManagement`: stt, tts, llm or embedding. -/
inductive ModelKind where
  | stt
  | tts
  | llm
  | embedding
deriving DecidableEq

/-- `ModelConfig.status` in `ModelManagement`. -/
inductive ModelStatus where
  | active
  | inactive
  | error
deriving DecidableEq

/-- The `ModelConfig` interface of `ModelManagement`.  The heterogeneous
`config` object is modelled as string key/value pairs; `lastUpdated`
(`Date`) as a `Nat` tick. -/
structure ModelConfig where
  id : String
  name : String
  kind : ModelKind
  provider : String
  model : String
  status : ModelStatus
  config : List (String × String)
  lastUpdated : Nat
deriving DecidableEq

/-- The state hooks of `ModelManagement` touched by `handleSaveModel`,
plus the last toast message shown. -/
structure MmState where
  models : List ModelConfig
  dialogOpen : Bool
  editingModel : Option ModelConfig
  lastToast : Option String
deriving DecidableEq

/-- The success toast text of `handleSaveModel`. -/
def saveModelToast : String := "Model configuration updated successfully"

/-- `handleSaveModel`: returns early when no model is being edited;
otherwise maps over `models`, replacing the entry whose id equals the
id of the edited configuration (refreshing `lastUpdated`), closes the dialog,
clears `editingModel`, and shows the success toast.  There is no
validation step and no rejection path. -/
def handleSaveModel (s : MmState) (now : Nat) : MmState :=
  match s.editingModel with
  | none => s
  | some em =>
      { s with
        models := s.models.map (fun m =>
          if m.id = em.id then { em with lastUpdated := now } else m)
        dialogOpen := false
        editingModel := none
        lastToast := some saveModelToast }

/-- `CallRecording.status` in `CallRecordings`. -/
inductive RecStatus where
  | completed
  | failed
  | processing
deriving DecidableEq

/-- `CallRecording.sentiment` in `CallRecordings`. -/
inductive Sentiment where
  | positive
  | negative
  | neutral
deriving DecidableEq

/-- The `CallRecording` interface of `CallRecordings`.  `timestamp` is a
`Nat` tick, `duration` is in seconds as in the source. -/
structure CallRecording where
  id : String
  timestamp : Nat
  duration : Nat
  language : String
  status : RecStatus
  participantId : String
  audioUrl : Option String
  transcription : Option String
  sentiment : Option Sentiment
deriving DecidableEq

/-- `handleDelete`: `setRecordings(recordings.filter(r => r.id !== id))`. -/
def handleDelete (recordings : List CallRecording) (id : String) : List CallRecording :=
  recordings.filter (fun r => r.id != id)

/-- Content of the last message of the conversation, if any. -/
def lastContent (s : AgentState) : Option String :=
  (s.conversation.getLast?).map ConversationMessage.content

/-- The last message of the conversation, if any. -/
def lastMessage (s : AgentState) : Option ConversationMessage :=
  s.conversation.getLast?

/-! ## General lemmas about the handlers -/

/-- `handleTextSubmit` never changes the connected flag. -/
theorem handleTextSubmit_isConnected (s : AgentState) (now : Nat) :
    (handleTextSubmit s now).isConnected = s.isConnected := by
  unfold handleTextSubmit
  split <;> rfl

/-- `handleStartRecording` never changes the connected flag. -/
theorem handleStartRecording_isConnected (s : AgentState) :
    (handleStartRecording s).isConnected = s.isConnected := by
  unfold handleStartRecording
  split <;> rfl

/-- `handleStopRecording` never changes the connected flag. -/
theorem handleStopRecording_isConnected (s : AgentState) (now : Nat) :
    (handleStopRecording s now).isConnected = s.isConnected := by
  unfold handleStopRecording
  split <;> rfl

/-- Firing a scheduled timer never changes the connected flag. -/
theorem fireNextTimer_isConnected (s : AgentState) (now : Nat) :
    (fireNextTimer s now).isConnected = s.isConnected := by
  unfold fireNextTimer
  cases s.pendingTimers with
  | nil => rfl
  | cons t rest => cases t <;> rfl

/-- Folding fragments into the buffer leaves the recording flag alone. -/
theorem appendAll_isRecording (frags : List String) (s : AgentState) :
    (appendAll s frags).isRecording = s.isRecording := by
  induction frags generalizing s with
  | nil => rfl
  | cons f fs ih => exact ih (appendInput s f)

/-- After folding fragments into the buffer, the buffer holds the last
fragment (each arrival replaces the previous content wholesale). -/
theorem appendAll_currentTranscription (frags : List String) (s : AgentState) :
    (appendAll s frags).currentTranscription = frags.getLastD s.currentTranscription := by
  induction frags generalizing s with
  | nil => rfl
  | cons f fs ih =>
    show (appendAll (appendInput s f) fs).currentTranscription = _
    rw [ih, List.getLastD_cons]
    rfl

/-- The payload `handleStopRecording` writes into the appended user message
is the buffer content, with the canned fallback when the buffer is empty. -/
theorem lastContent_stopRecording (s : AgentState) (now : Nat)
    (h : s.isRecording = true) :
    lastContent (handleStopRecording s now) =
      some (if s.currentTranscription = "" then fallbackUtterance
            else s.currentTranscription) := by
  unfold handleStopRecording lastContent
  simp only [h, Bool.not_true, Bool.false_eq_true, if_false]
  rw [List.getLast?_concat]
  split <;> rfl

/-- Mapping the replace-by-id function of `handleSaveModel` over a list
that contains no matching id is the identity. -/
theorem map_replace_no_match (l : List ModelConfig) (em : ModelConfig) (now : Nat)
    (hu : ∀ m ∈ l, m.id ≠ em.id) :
    l.map (fun m => if m.id = em.id then { em with lastUpdated := now } else m) = l := by
  induction l with
  | nil => rfl
  | cons m ms ih =>
    simp only [List.map_cons, List.cons.injEq]
    constructor
    · rw [if_neg (hu m (List.mem_cons_self m ms))]
    · exact ih (fun x hx => hu x (List.mem_cons_of_mem m hx))

/-! ## Sample states used by witnesses and counterexamples -/

/-- A freshly connected component state. -/
def connectedIdle : AgentState := handleConnect initialState 1

/-- Connected state with a pending whitespace-only text input. -/
def whitespaceInputState : AgentState :=
  { connectedIdle with textInput := "   " }

/-- First sample recording of the `CallRecordings` grid. -/
def sampleRec1 : CallRecording :=
  { id := "1"
    timestamp := 10
    duration := 245
    language := "English"
    status := RecStatus.completed
    participantId := "user_123"
    audioUrl := none
    transcription := some ("Hello, I need help with my account...")
    sentiment := some Sentiment.neutral }

/-- Second sample recording of the `CallRecordings` grid. -/
def sampleRec2 : CallRecording :=
  { id := "2"
    timestamp := 11
    duration := 180
    language := "Hindi"
    status := RecStatus.completed
    participantId := "user_456"
    audioUrl := none
    transcription := none
    sentiment := some Sentiment.positive }

/-- A two-element recordings list. -/
def sampleRecs : List CallRecording := [sampleRec1, sampleRec2]

/-! ## Claims -/

/-- C7: `handleDisconnect` is accepted from every session state (it is
total on `AgentState` and unconditional), clears the recording and
processing flags of any in-flight turn, leaves the conversation log
intact, and moves the session to the `Disconnected` phase. -/
theorem c7_disconnect_from_every_state (s : AgentState) :
    (handleDisconnect s).isConnected = false ∧
    (handleDisconnect s).isRecording = false ∧
    (handleDisconnect s).isProcessing = false ∧
    sessionState (handleDisconnect s) = SessionPhase.Disconnected ∧
    (handleDisconnect s).conversation = s.conversation := by
  refine ⟨rfl, rfl, rfl, ?_, rfl⟩
  simp [sessionState, handleDisconnect]

/-- C9: when the text input trims to the empty string (empty or
whitespace-only) or the session is not connected, `handleTextSubmit` is a
no-op: the whole state is returned unchanged, so no message is appended,
the input is not cleared and the processing flag is not set. -/
theorem c9_text_submit_frame (s : AgentState) (now : Nat)
    (h : jsTrim s.textInput = "" ∨ s.isConnected = false) :
    handleTextSubmit s now = s := by
  unfold handleTextSubmit
  rcases h with h | h <;> simp [h]

/-- Witness for C9 at a whitespace-only input in a connected state. -/
theorem c9_text_submit_frame_witness :
    handleTextSubmit whitespaceInputState 5 = whitespaceInputState :=
  c9_text_submit_frame whitespaceInputState 5 (Or.inl (by decide))

/-- C10: `handleDelete` removes exactly the recordings whose id equals the
given id: the result is a sublist of the input (relative order of the
survivors is preserved), contains no recording with the deleted id, keeps
every recording with a different id, and equals the input when no
recording carries the deleted id. -/
theorem c10_delete_exact (recs : List CallRecording) (i : String) :
    List.Sublist (handleDelete recs i) recs ∧
    (∀ r ∈ handleDelete recs i, r.id ≠ i) ∧
    (∀ r ∈ recs, r.id ≠ i → r ∈ handleDelete recs i) ∧
    ((∀ r ∈ recs, r.id ≠ i) → handleDelete recs i = recs) := by
  refine ⟨List.filter_sublist _, ?_, ?_, ?_⟩
  · intro r hr
    have hp := List.of_mem_filter hr
    simpa [bne_iff_ne] using hp
  · intro r hr hne
    exact List.mem_filter.mpr ⟨hr, by simpa [bne_iff_ne] using hne⟩
  · intro h
    apply List.filter_eq_self.mpr
    intro r hr
    simpa [bne_iff_ne] using h r hr

/-- Witness for C10 on the sample list: deleting id 1 leaves no recording
with id 1, and deleting an absent id leaves the list unchanged. -/
theorem c10_delete_exact_witness :
    (∀ r ∈ handleDelete sampleRecs ("1"), r.id ≠ "1") ∧
    handleDelete sampleRecs ("99") = sampleRecs :=
  ⟨(c10_delete_exact sampleRecs ("1")).2.1,
   (c10_delete_exact sampleRecs ("99")).2.2.2 (by decide)⟩

/-- C6: failure containment.  From a connected state, every event other
than an explicit disconnect leaves the session connected; in particular a
turn failing in a stage (the catch branches of the start- and
stop-recording handlers) is terminal for that turn only: the recording and
processing flags are cleared, so the session either returns to the `Idle`
phase (ready for subsequent turns) or the event was a guarded no-op. -/
theorem c6_failure_containment (s : AgentState) (e : UiEvent)
    (hc : s.isConnected = true) (he : e ≠ UiEvent.disconnect) :
    (step s e).isConnected = true ∧
    (sessionState (step s UiEvent.stopRecordingFailed) = SessionPhase.Idle ∨
      step s UiEvent.stopRecordingFailed = s) ∧
    (sessionState (step s UiEvent.startRecordingFailed) = SessionPhase.Idle ∨
      step s UiEvent.startRecordingFailed = s) := by
  refine ⟨?_, ?_, ?_⟩
  · cases e with
    | connect now => simp [step, hc]
    | connectFailed => simp [step, hc]
    | disconnect => exact absurd rfl he
    | startRecording =>
        simp only [step]
        split
        · rw [handleStartRecording_isConnected]; exact hc
        · exact hc
    | startRecordingFailed =>
        simp only [step]
        split
        · exact hc
        · exact hc
    | stopRecording now =>
        simp only [step]
        split
        · rw [handleStopRecording_isConnected]; exact hc
        · exact hc
    | stopRecordingFailed =>
        simp only [step]
        split
        · exact hc
        · exact hc
    | textSubmit now =>
        simp only [step]
        split
        · rw [handleTextSubmit_isConnected]; exact hc
        · exact hc
    | textChange t =>
        simp only [step]
        split
        · exact hc
        · exact hc
    | clearConversation => simp [step, hc, handleClearConversation]
    | setLanguage l => simp [step, hc, applyLanguage]
    | setSttModel m => simp [step, hc, applySttModel]
    | setTtsModel m => simp [step, hc, applyTtsModel]
    | setLlmModel m => simp [step, hc, applyLlmModel]
    | toggleMute => exact hc
    | timerFire now => rw [step, fireNextTimer_isConnected]; exact hc
  · simp only [step]
    split
    · rename_i hg
      left
      simp only [Bool.and_eq_true, Bool.not_eq_true'] at hg
      simp [sessionState, catchStopRecording, hg.1.1]
    · right; rfl
  · simp only [step]
    split
    · rename_i hg
      left
      simp only [Bool.and_eq_true, Bool.not_eq_true'] at hg
      simp [sessionState, catchStartRecording, hg.1.1, hg.1.2]
    · right; rfl

/-- Witness for C6: a connected idle state stays connected across a mute
toggle, and the two failure events behave as stated there. -/
theorem c6_failure_containment_witness :
    (step connectedIdle UiEvent.toggleMute).isConnected = true ∧
    (sessionState (step connectedIdle UiEvent.stopRecordingFailed) = SessionPhase.Idle ∨
      step connectedIdle UiEvent.stopRecordingFailed = connectedIdle) ∧
    (sessionState (step connectedIdle UiEvent.startRecordingFailed) = SessionPhase.Idle ∨
      step connectedIdle UiEvent.startRecordingFailed = connectedIdle) :=
  c6_failure_containment connectedIdle UiEvent.toggleMute rfl (by decide)

/-! ## C1 trace: disconnect during processing -/

/-- C1 trace: connect, start recording, let both simulated transcription
timers fire. -/
def c1Transcribed : AgentState :=
  fireNextTimer (fireNextTimer (handleStartRecording connectedIdle) 2) 3

/-- C1 trace: stop recording at tick 4 — the session is now processing and
one agent-response timer is scheduled. -/
def c1Processing : AgentState := handleStopRecording c1Transcribed 4

/-- C1 trace: disconnect while processing. -/
def c1Disconnected : AgentState := handleDisconnect c1Processing

/-- C1 trace: the scheduled response timer fires at tick 6, after the
disconnect. -/
def c1AfterTimer : AgentState := fireNextTimer c1Disconnected 6

/-- C1: the disconnect is issued while the pipeline is processing, yet the
agent-response timer scheduled for the cancelled exchange survives the
disconnect and, when it fires, still appends the agent response message to
the conversation — the code emits a response for the cancelled turn after
the cancellation, contradicting the cancellation-safety guarantee. -/
theorem c1_response_emitted_after_disconnect :
    sessionState c1Processing = SessionPhase.Processing ∧
    c1Disconnected.isConnected = false ∧
    c1Disconnected.pendingTimers = [PendingTimer.agentResponseTimer stopReplyContent] ∧
    c1AfterTimer.conversation =
      c1Disconnected.conversation ++
        [{ id := "7"
           type := MsgType.agent
           content := stopReplyContent
           timestamp := 6
           language := none
           confidence := none }] :=
  ⟨rfl, rfl, rfl, rfl⟩

/-! ## C2: barge-in while processing -/

/-- C2 trace: a processing session with the agent-response timer of the
in-flight turn still scheduled (same construction as the C1 trace). -/
def c2InFlight : AgentState :=
  handleStopRecording
    (fireNextTimer (fireNextTimer (handleStartRecording connectedIdle) 2) 3) 4

/-- C2 trace: `handleStartRecording` invoked while processing. -/
def c2Barge : AgentState := handleStartRecording c2InFlight

/-- Counterexample to C2: beginning a capture while the session is
processing does not cancel the in-flight turn.  The record control is in
fact disabled, and invoking the handler directly leaves the response timer
of the in-flight turn scheduled at the head of the queue; firing it still
appends the agent response of that turn to the conversation, so the turn was
not cancelled (and nothing is ever marked cancelled). -/
theorem c2_no_cancel_counterexample :
    sessionState c2InFlight = SessionPhase.Processing ∧
    recordButtonDisabled c2InFlight = true ∧
    c2Barge.pendingTimers =
      PendingTimer.agentResponseTimer stopReplyContent :: startTranscriptionTimers ∧
    (fireNextTimer c2Barge 8).conversation =
      c2InFlight.conversation ++
        [{ id := "9"
           type := MsgType.agent
           content := stopReplyContent
           timestamp := 8
           language := none
           confidence := none }] :=
  ⟨rfl, rfl, rfl, rfl⟩

/-- C2 amended: while the session is processing, the record control is
disabled, so beginning a capture through the UI is a no-op; the handler
itself performs no cancellation — invoked directly it leaves the pending
response of the in-flight turn scheduled, leaves the processing flag set
and the conversation untouched, while turning the recording flag on.  At
most one capture is active at a time only because the UI gate blocks the
second one. -/
theorem c2_barge_in_disabled_not_cancelling (s : AgentState)
    (hc : s.isConnected = true) (hp : s.isProcessing = true) :
    recordButtonDisabled s = true ∧
    step s UiEvent.startRecording = s ∧
    (handleStartRecording s).pendingTimers = s.pendingTimers ++ startTranscriptionTimers ∧
    (handleStartRecording s).isProcessing = true ∧
    (handleStartRecording s).conversation = s.conversation ∧
    (handleStartRecording s).isRecording = true := by
  refine ⟨hp, ?_, ?_, ?_, ?_, ?_⟩ <;>
    simp [step, handleStartRecording, recordButtonDisabled, hc, hp]

/-- Witness for C2 at the concrete processing state of the trace. -/
theorem c2_barge_in_disabled_not_cancelling_witness :
    recordButtonDisabled c2InFlight = true ∧
    step c2InFlight UiEvent.startRecording = c2InFlight ∧
    (handleStartRecording c2InFlight).pendingTimers =
      c2InFlight.pendingTimers ++ startTranscriptionTimers ∧
    (handleStartRecording c2InFlight).isProcessing = true ∧
    (handleStartRecording c2InFlight).conversation = c2InFlight.conversation ∧
    (handleStartRecording c2InFlight).isRecording = true :=
  c2_barge_in_disabled_not_cancelling c2InFlight rfl rfl

/-! ## C3: fragment assembly -/

/-- C3 trace: a connected, recording state with an empty buffer. -/
def c3Recording : AgentState := handleStartRecording connectedIdle

/-- Counterexample to C3: appending the fragments `"Hello "` and `"world"`
between begin and end of capture yields the payload `"world"`, not the
ordered concatenation `"Hello world"` — each arrival replaces the whole
buffer (`setCurrentTranscription`), nothing is concatenated. -/
theorem c3_concat_counterexample :
    lastContent (handleStopRecording (appendAll c3Recording ["Hello ", "world"]) 9) =
      some ("world") ∧
    ("world" : String) ≠ "Hello " ++ "world" :=
  ⟨rfl, by decide⟩

/-- C3 amended: the payload assembled at end of capture is the most
recently appended fragment (every fragment overwrites the buffer), with
the canned fallback utterance when that fragment is the empty string; the
earlier fragments are discarded. -/
theorem c3_last_fragment_wins (s : AgentState) (frags : List String) (now : Nat)
    (h : s.isRecording = true) :
    (appendAll s frags).currentTranscription = frags.getLastD s.currentTranscription ∧
    lastContent (handleStopRecording (appendAll s frags) now) =
      some (if frags.getLastD s.currentTranscription = "" then fallbackUtterance
            else frags.getLastD s.currentTranscription) := by
  refine ⟨appendAll_currentTranscription frags s, ?_⟩
  rw [lastContent_stopRecording (appendAll s frags) now
      (by rw [appendAll_isRecording]; exact h),
    appendAll_currentTranscription]

/-- Witness for C3 on the concrete recording state and two fragments. -/
theorem c3_last_fragment_wins_witness :
    (appendAll c3Recording ["Hello ", "world"]).currentTranscription =
      ["Hello ", "world"].getLastD c3Recording.currentTranscription ∧
    lastContent (handleStopRecording (appendAll c3Recording ["Hello ", "world"]) 9) =
      some (if ["Hello ", "world"].getLastD c3Recording.currentTranscription = ""
            then fallbackUtterance
            else ["Hello ", "world"].getLastD c3Recording.currentTranscription) :=
  c3_last_fragment_wins c3Recording ["Hello ", "world"] 9 rfl

/-! ## C4: text-origin turns -/

/-- C4 trace: connected state with a typed message ready to submit. -/
def c4Ready : AgentState := { connectedIdle with textInput := "book a flight" }

/-- C4 trace: the text is submitted at tick 11. -/
def c4Submitted : AgentState := handleTextSubmit c4Ready 11

/-- Counterexample to C4: the transcript of a text-origin turn is the
submitted text verbatim, but its confidence is absent (`none`), not 1.0
(which would be `some 100` in hundredths) — the text path never sets a
confidence field. -/
theorem c4_confidence_counterexample :
    Option.map ConversationMessage.content (lastMessage c4Submitted) =
      some ("book a flight") ∧
    Option.map ConversationMessage.confidence (lastMessage c4Submitted) = some none ∧
    (some (none : Option Nat)) ≠ some (some 100) :=
  ⟨rfl, rfl, by decide⟩

/-- C4 amended: for a text-origin turn the STT stage is skipped (only the
agent-response timer is scheduled, no transcription timer) and the
transcript equals the submitted text verbatim, but no confidence score is
attached at all (the field stays `none`; the voice path attaches 0.95). -/
theorem c4_text_verbatim_no_confidence (s : AgentState) (now : Nat)
    (hc : s.isConnected = true) (ht : jsTrim s.textInput ≠ "") :
    Option.map ConversationMessage.content (lastMessage (handleTextSubmit s now)) =
      some s.textInput ∧
    Option.map ConversationMessage.confidence (lastMessage (handleTextSubmit s now)) =
      some none ∧
    (handleTextSubmit s now).pendingTimers =
      s.pendingTimers ++ [PendingTimer.agentResponseTimer (echoReply s.textInput)] := by
  have hcond : (jsTrim s.textInput == "" || !s.isConnected) = false := by
    simp [hc, ht]
  unfold handleTextSubmit lastMessage
  rw [hcond]
  refine ⟨?_, ?_, rfl⟩ <;>
    simp [List.getLast?_concat]

/-- Witness for C4 at the concrete submission trace. -/
theorem c4_text_verbatim_no_confidence_witness :
    Option.map ConversationMessage.content (lastMessage (handleTextSubmit c4Ready 11)) =
      some c4Ready.textInput ∧
    Option.map ConversationMessage.confidence (lastMessage (handleTextSubmit c4Ready 11)) =
      some none ∧
    (handleTextSubmit c4Ready 11).pendingTimers =
      c4Ready.pendingTimers ++ [PendingTimer.agentResponseTimer (echoReply c4Ready.textInput)] :=
  c4_text_verbatim_no_confidence c4Ready 11 rfl (by decide)

/-! ## C5: configuration changes mid-turn -/

/-- C5 trace: capture begins with the language configured as `en`. -/
def c5Capturing : AgentState := handleStartRecording connectedIdle

/-- C5 trace: the settings dialog switches the language to `hi` while the
capture is in flight. -/
def c5Switched : AgentState := applyLanguage c5Capturing ("hi")

/-- C5 trace: the capture ends at tick 12. -/
def c5Done : AgentState := handleStopRecording c5Switched 12

/-- Counterexample to C5: the turn began under language `en`, the settings
change to `hi` was issued while capturing, yet the finished turn records
language `hi` — the in-flight turn observes the new configuration
immediately instead of the snapshot it started with; nothing is queued for
the next idle transition. -/
theorem c5_snapshot_counterexample :
    sessionState c5Capturing = SessionPhase.Capturing ∧
    c5Capturing.voiceSettings.language = "en" ∧
    Option.map ConversationMessage.language (lastMessage c5Done) = some (some ("hi")) ∧
    (some (some ("hi")) : Option (Option String)) ≠ some (some ("en")) :=
  ⟨rfl, rfl, rfl, by decide⟩

/-- C5 amended: a settings change takes effect immediately in every
session state (the dialog writes straight into `voiceSettings`), and an
in-flight turn observes the configuration current when the capture ends,
not a snapshot from when it began. -/
theorem c5_settings_immediate (s : AgentState) (lang : String) (now : Nat)
    (h : s.isRecording = true) :
    (applyLanguage s lang).voiceSettings.language = lang ∧
    Option.map ConversationMessage.language
        (lastMessage (handleStopRecording (applyLanguage s lang) now)) =
      some (some lang) := by
  refine ⟨rfl, ?_⟩
  unfold applyLanguage handleStopRecording lastMessage
  simp only [h, Bool.not_true, Bool.false_eq_true, if_false]
  simp [List.getLast?_concat]

/-- Witness for C5 at the concrete capture trace. -/
theorem c5_settings_immediate_witness :
    (applyLanguage c5Capturing ("hi")).voiceSettings.language = "hi" ∧
    Option.map ConversationMessage.language
        (lastMessage (handleStopRecording (applyLanguage c5Capturing ("hi")) 12)) =
      some (some ("hi")) :=
  c5_settings_immediate c5Capturing ("hi") 12 rfl

/-! ## C8: saving a model configuration -/

/-- A known model of the admin surface (the Whisper STT entry of the mock
data). -/
def whisperModel : ModelConfig :=
  { id := "stt-1"
    name := "Whisper Large V3"
    kind := ModelKind.stt
    provider := "Groq"
    model := "whisper-large-v3"
    status := ModelStatus.active
    config := [("language", "en")]
    lastUpdated := 0 }

/-- An edited configuration naming a model id that no entry carries. -/
def unknownConfig : ModelConfig :=
  { id := "stt-99"
    name := "Ghost Model"
    kind := ModelKind.stt
    provider := "Nowhere"
    model := "ghost-1"
    status := ModelStatus.active
    config := []
    lastUpdated := 0 }

/-- Admin state about to save the unknown-id configuration. -/
def c8State : MmState :=
  { models := [whisperModel]
    dialogOpen := true
    editingModel := some unknownConfig
    lastToast := none }

/-- Counterexample to C8: saving a configuration whose id matches no
existing model performs no validation and is not rejected — the handler
closes the dialog and shows the ordinary success toast (there is no
rejected outcome anywhere in the handler), while the configuration is
silently dropped from the saved list. -/
theorem c8_no_validation_counterexample :
    (handleSaveModel c8State 5).lastToast = some saveModelToast ∧
    (handleSaveModel c8State 5).lastToast ≠ some ("Rejected") ∧
    (handleSaveModel c8State 5).dialogOpen = false ∧
    (handleSaveModel c8State 5).models = c8State.models :=
  ⟨rfl, by decide, rfl, rfl⟩

/-- C8 amended: `handleSaveModel` validates nothing; a configuration whose
id matches no existing model leaves the model list unchanged (the edit is
silently dropped rather than saved as active), yet the dialog closes, the
editing buffer clears and the success toast is shown — it is never
rejected. -/
theorem c8_unknown_id_silently_dropped (s : MmState) (em : ModelConfig) (now : Nat)
    (he : s.editingModel = some em) (hu : ∀ m ∈ s.models, m.id ≠ em.id) :
    (handleSaveModel s now).models = s.models ∧
    (handleSaveModel s now).lastToast = some saveModelToast ∧
    (handleSaveModel s now).dialogOpen = false ∧
    (handleSaveModel s now).editingModel = none := by
  unfold handleSaveModel
  rw [he]
  exact ⟨map_replace_no_match s.models em now hu, rfl, rfl, rfl⟩

/-- Witness for C8 at the concrete admin state. -/
theorem c8_unknown_id_silently_dropped_witness :
    (handleSaveModel c8State 5).models = c8State.models ∧
    (handleSaveModel c8State 5).lastToast = some saveModelToast ∧
    (handleSaveModel c8State 5).dialogOpen = false ∧
    (handleSaveModel c8State 5).editingModel = none :=
  c8_unknown_id_silently_dropped c8State unknownConfig 5 rfl (by decide)
